import Mathlib

/-
  Verification of the mTLS identity and transport layer of the
  personalized-cyber service mesh (src/base/spiffe_agent.py and
  src/lms/utils/api_client.py), as a shallow embedding in Lean 4.

  Conventions of the embedding:
  * Mutable attributes of `SPIFFEMTLSHandler` become a `HandlerState` record;
    methods become state-passing functions.
  * A call into the SPIRE Workload API can raise at several points; each
    attempt's outcome is an explicit `FetchOutcome` parameter.
  * `time.sleep` and fetch attempts are recorded in an event trace so that
    the retry schedule is observable.
  * Python `None` becomes `Option.none`; exceptions become `Except.error`
    carrying the exception message.
-/

/-- An X.509-SVID as fetched from the Workload API (`client.fetch_x509_svid()`):
its SPIFFE ID, the PEM-encoded certificate chain (leaf first), and the
PEM-encoded private key. -/
structure Svid where
  spiffe_id : String
  cert_chain : List String
  private_key : String
deriving Repr, DecidableEq

/-- The mutable attributes of `SPIFFEMTLSHandler` (spiffe_agent.py lines 33-37).
A file is modelled by its contents; `none` means the attribute is still `None`. -/
structure HandlerState where
  cert_file : Option String
  key_file : Option String
  bundle_file : Option String
  x509_svid : Option Svid
  spiffe_id : Option String
deriving Repr, DecidableEq

/-- The state right after `__init__` sets every attribute to `None`. -/
def initState : HandlerState :=
  { cert_file := none, key_file := none, bundle_file := none,
    x509_svid := none, spiffe_id := none }

/-- Where one fetch attempt of `_refresh_certificates` raises, if anywhere:
`svidFail` - the `WorkloadApiClient` construction or `fetch_x509_svid()` raises
(no attribute assigned yet); `bundleFail svid` - `fetch_x509_svid()` returned
`svid` (already assigned to `self.x509_svid` / `self.spiffe_id`) and then
`fetch_x509_bundles()` raises; `success svid bundle` - both fetches succeed,
`bundle` being the list of PEM authority certificates the bundle yields. -/
inductive FetchOutcome where
  | svidFail : FetchOutcome
  | bundleFail : Svid → FetchOutcome
  | success : Svid → List String → FetchOutcome
deriving Repr, DecidableEq

/-- Whether an attempt outcome lands in the `except` branch of the retry loop. -/
def isFail : FetchOutcome → Bool
  | FetchOutcome.success _ _ => false
  | FetchOutcome.svidFail => true
  | FetchOutcome.bundleFail _ => true

/-- `_write_cert_files` (spiffe_agent.py lines 79-141): replaces the three temp
files with the cert chain, the private key, and the concatenated bundle
authorities.  The source reads the chain and key from `self.x509_svid`, which
`_refresh_certificates` assigned just before calling it; here that SVID is
passed explicitly. -/
def write_cert_files (s : HandlerState) (svid : Svid) (bundle : List String) :
    HandlerState :=
  { s with
    cert_file := some (String.join svid.cert_chain),
    key_file := some svid.private_key,
    bundle_file := some (String.join bundle) }

/-- The body of the `try`/`except` of one attempt of `_refresh_certificates`
(spiffe_agent.py lines 61-72): on `svidFail` nothing was assigned; on
`bundleFail` the new SVID and its SPIFFE ID were already stored before the
bundle fetch raised; on `success` the files are rewritten as well.  The `Bool`
is whether the attempt `return True`s. -/
def attemptRefresh (s : HandlerState) (f : FetchOutcome) : HandlerState × Bool :=
  match f with
  | FetchOutcome.svidFail => (s, false)
  | FetchOutcome.bundleFail svid =>
      ({ s with x509_svid := some svid, spiffe_id := some svid.spiffe_id }, false)
  | FetchOutcome.success svid bundle =>
      (write_cert_files
        { s with x509_svid := some svid, spiffe_id := some svid.spiffe_id }
        svid bundle, true)

/-- Observable events of the retry loop: a fetch attempt (numbered from 1, as
in the source) and a `time.sleep` of the given number of seconds. -/
inductive Event where
  | fetchAttempt : Nat → Event
  | sleep : Nat → Event
deriving Repr, DecidableEq

/-- `max_attempts = 5` (spiffe_agent.py line 59). -/
def max_attempts : Nat := 5

/-- The loop `for attempt in range(1, max_attempts + 1)` of
`_refresh_certificates` (spiffe_agent.py lines 60-76), with `fuel` the number
of loop iterations left.  On success the loop returns `True` at once; on a
failed attempt it sleeps `2 ** attempt` seconds, except after the last attempt
(`if attempt < max_attempts`), and falls through to `return False`. -/
def refreshAux (outcomes : Nat → FetchOutcome) :
    HandlerState → Nat → Nat → HandlerState × Bool × List Event
  | s, _, 0 => (s, false, [])
  | s, attempt, Nat.succ fuel =>
    let r := attemptRefresh s (outcomes attempt)
    if r.2 then
      (r.1, true, [Event.fetchAttempt attempt])
    else
      let sleeps := if attempt < max_attempts then [Event.sleep (2 ^ attempt)] else []
      let rest := refreshAux outcomes r.1 (attempt + 1) fuel
      (rest.1, rest.2.1, Event.fetchAttempt attempt :: (sleeps ++ rest.2.2))

/-- `_refresh_certificates` (spiffe_agent.py lines 57-77): runs the retry loop
from attempt 1 with `max_attempts` iterations available; yields the final
state, the returned boolean, and the trace of attempts and sleeps. -/
def refresh_certificates (s : HandlerState) (outcomes : Nat → FetchOutcome) :
    HandlerState × Bool × List Event :=
  refreshAux outcomes s 1 max_attempts

/-- The sleep durations of a trace, in order. -/
def sleepsOf (es : List Event) : List Nat :=
  es.filterMap (fun e => match e with
    | Event.sleep n => some n
    | Event.fetchAttempt _ => none)

/-- The number of fetch attempts in a trace. -/
def countAttempts (es : List Event) : Nat :=
  (es.filterMap (fun e => match e with
    | Event.fetchAttempt n => some n
    | Event.sleep _ => none)).length

/-- The trace the loop produces from attempt `attempt` with `fuel` iterations
left when every attempt fails. -/
def failTrace : Nat → Nat → List Event
  | _, 0 => []
  | attempt, Nat.succ fuel =>
    Event.fetchAttempt attempt ::
      ((if attempt < max_attempts then [Event.sleep (2 ^ attempt)] else []) ++
        failTrace (attempt + 1) fuel)

theorem attemptRefresh_of_isFail (s : HandlerState) (f : FetchOutcome)
    (hf : isFail f = true) : (attemptRefresh s f).2 = false := by
  cases f with
  | svidFail => rfl
  | bundleFail svid => rfl
  | success svid bundle => simp [isFail] at hf

theorem refreshAux_allfail (outcomes : Nat → FetchOutcome)
    (h : ∀ n, isFail (outcomes n) = true) :
    ∀ (fuel : Nat) (s : HandlerState) (attempt : Nat),
      (refreshAux outcomes s attempt fuel).2.1 = false ∧
      (refreshAux outcomes s attempt fuel).2.2 = failTrace attempt fuel := by
  intro fuel
  induction fuel with
  | zero => intro s attempt; exact ⟨rfl, rfl⟩
  | succ fuel ih =>
    intro s attempt
    have hfail := attemptRefresh_of_isFail s (outcomes attempt) (h attempt)
    simp [refreshAux, failTrace, hfail, ih]

theorem refreshAux_svidFail_state (outcomes : Nat → FetchOutcome)
    (h : ∀ n, outcomes n = FetchOutcome.svidFail) :
    ∀ (fuel : Nat) (s : HandlerState) (attempt : Nat),
      (refreshAux outcomes s attempt fuel).1 = s ∧
      (refreshAux outcomes s attempt fuel).2.1 = false := by
  intro fuel
  induction fuel with
  | zero => intro s attempt; exact ⟨rfl, rfl⟩
  | succ fuel ih =>
    intro s attempt
    simp [refreshAux, h attempt, attemptRefresh, ih]

/-- A populated prior state, as after one successful refresh. -/
def oldState : HandlerState :=
  { cert_file := some "OLDCERT", key_file := some "OLDKEY",
    bundle_file := some "OLDBUNDLE",
    x509_svid := some { spiffe_id := "spiffe://security-training.example.org/old",
                        cert_chain := ["OLDCERT"], private_key := "OLDKEY" },
    spiffe_id := some "spiffe://security-training.example.org/old" }

/-- A fresh SVID delivered by a later fetch. -/
def newSvid : Svid :=
  { spiffe_id := "spiffe://security-training.example.org/new",
    cert_chain := ["NEWCERT"], private_key := "NEWKEY" }

/-- Every attempt raises already at `fetch_x509_svid()`. -/
def alwaysSvidFail : Nat → FetchOutcome := fun _ => FetchOutcome.svidFail

/-- Every attempt fetches `newSvid` and then raises at `fetch_x509_bundles()`. -/
def alwaysBundleFail : Nat → FetchOutcome := fun _ => FetchOutcome.bundleFail newSvid

/-- C2 counterexample: with a populated prior state, a refresh in which every
attempt raises at the trust-bundle fetch (after the SVID fetch succeeded)
returns failure, yet the stored `spiffe_id` has been overwritten with the new
identity — the prior state is not left untouched. -/
theorem refresh_failure_mutates_state :
    (refresh_certificates oldState alwaysBundleFail).2.1 = false ∧
    (refresh_certificates oldState alwaysBundleFail).1.spiffe_id =
      some "spiffe://security-training.example.org/new" ∧
    oldState.spiffe_id = some "spiffe://security-training.example.org/old" ∧
    (refresh_certificates oldState alwaysBundleFail).1 ≠ oldState := by
  refine ⟨rfl, rfl, rfl, ?_⟩
  decide

/-- C2 amended: when every fetch attempt raises at the initial SVID fetch, a
failed refresh leaves the stored credential state exactly as it was; a later
raise (after the SVID fetch succeeded) already overwrites `x509_svid` and
`spiffe_id` even though the refresh reports failure. -/
theorem refresh_svidFail_leaves_state (s : HandlerState)
    (outcomes : Nat → FetchOutcome)
    (h : ∀ n, outcomes n = FetchOutcome.svidFail) :
    (refresh_certificates s outcomes).1 = s ∧
    (refresh_certificates s outcomes).2.1 = false :=
  refreshAux_svidFail_state outcomes h max_attempts s 1

/-- C2 witness: the amended theorem at the populated prior state with every
attempt failing at the SVID fetch. -/
theorem refresh_svidFail_leaves_state_witness :
    (refresh_certificates oldState alwaysSvidFail).1 = oldState ∧
    (refresh_certificates oldState alwaysSvidFail).2.1 = false :=
  refresh_svidFail_leaves_state oldState alwaysSvidFail (fun _ => rfl)

/-- C3 counterexample: with every fetch failing, the synchronous refresh makes
exactly 5 attempts but sleeps only 2, 4, 8, and 16 seconds — there is no 32
second sleep, because the loop skips the sleep after the final attempt. -/
theorem refresh_sleep_schedule_counterexample :
    countAttempts (refresh_certificates initState alwaysSvidFail).2.2 = 5 ∧
    sleepsOf (refresh_certificates initState alwaysSvidFail).2.2 = [2, 4, 8, 16] ∧
    sleepsOf (refresh_certificates initState alwaysSvidFail).2.2 ≠ [2, 4, 8, 16, 32] := by
  refine ⟨rfl, rfl, ?_⟩
  decide

/-- C3 amended: when every fetch from the identity agent fails, a synchronous
refresh performs exactly 5 attempts, sleeping 2, 4, 8, and 16 seconds after
the first four failures, does not sleep after the fifth, and only then returns
failure to the caller. -/
theorem refresh_retry_schedule (s : HandlerState)
    (outcomes : Nat → FetchOutcome)
    (h : ∀ n, isFail (outcomes n) = true) :
    (refresh_certificates s outcomes).2.1 = false ∧
    (refresh_certificates s outcomes).2.2 =
      [Event.fetchAttempt 1, Event.sleep 2, Event.fetchAttempt 2, Event.sleep 4,
       Event.fetchAttempt 3, Event.sleep 8, Event.fetchAttempt 4, Event.sleep 16,
       Event.fetchAttempt 5] := by
  have key := refreshAux_allfail outcomes h max_attempts s 1
  refine ⟨key.1, ?_⟩
  show (refreshAux outcomes s 1 max_attempts).2.2 = _
  rw [key.2]
  decide

/-- C3 witness: the amended retry schedule at the never-populated state with
every attempt failing at the SVID fetch. -/
theorem refresh_retry_schedule_witness :
    (refresh_certificates initState alwaysSvidFail).2.1 = false ∧
    (refresh_certificates initState alwaysSvidFail).2.2 =
      [Event.fetchAttempt 1, Event.sleep 2, Event.fetchAttempt 2, Event.sleep 4,
       Event.fetchAttempt 3, Event.sleep 8, Event.fetchAttempt 4, Event.sleep 16,
       Event.fetchAttempt 5] :=
  refresh_retry_schedule initState alwaysSvidFail (fun _ => rfl)

/-
  The generic request/response loop of `BaseSPIFFEAgent._create_handler`
  (spiffe_agent.py lines 231-293).  JSON values are modelled as flat objects
  with string-or-null fields, which covers every body this runtime builds
  (callback results, `{"error": msg}`, and the health status); the decoded
  request body is a `Data` as well.
-/

/-- A JSON field value: a string or `null`. -/
inductive JVal where
  | str : String → JVal
  | null : JVal
deriving Repr, DecidableEq

/-- A decoded JSON object, as produced by `json.loads` on a request body or
passed to `json.dumps` for a response body. -/
abbrev Data := List (String × JVal)

/-- The observable outcome of handling a request: `errorResponse` models
`self.send_error(code, message)`, `jsonResponse` models `self._send_json(code,
data)`, and `uncaughtException` models an exception escaping the `do_POST` /
`do_GET` method (the connection is dropped without a structured response). -/
inductive Response where
  | errorResponse : Nat → String → Response
  | jsonResponse : Nat → Data → Response
  | uncaughtException : String → Response
deriving Repr, DecidableEq

/-- The immutable per-agent configuration read by the handler
(`BaseSPIFFEAgent.__init__`, spiffe_agent.py lines 179-182). -/
structure AgentConfig where
  service_name : String
  allowed_callers : List String
deriving Repr, DecidableEq

/-- One inbound POST request as the handler sees it: the peer SPIFFE ID
extracted from the client certificate's URI SAN (`none` when absent), the
`Content-Length` header (`none` when the header is missing), the result of
`json.loads` on the body (`Except.error` when undecodable), and the path. -/
structure POSTRequest where
  peer_id : Option String
  content_length : Option Nat
  body : Except String Data
  path : String

/-- `peer_id not in agent.allowed_callers`, negated: an absent peer is never a
member of the (string-valued) allow-list. -/
def peerInList (peer_id : Option String) (allowed_callers : List String) : Bool :=
  match peer_id with
  | none => false
  | some p => decide (p ∈ allowed_callers)

/-- The inbound authorization decision of `do_POST` (spiffe_agent.py lines
252-259): the request proceeds unless the allow-list is non-empty and the peer
is not a member, with the escape hatch that an absent peer plus
`DEV_MODE=true` proceeds anyway. -/
def authorize (allowed_callers : List String) (dev_mode : Bool)
    (peer_id : Option String) : Bool :=
  if !allowed_callers.isEmpty && !(peerInList peer_id allowed_callers) then
    peer_id.isNone && dev_mode
  else
    true

/-- Python string interpolation of a possibly-`None` peer id, as in
`f"Unauthorized: {peer_id}"`. -/
def pyStr (peer_id : Option String) : String :=
  match peer_id with
  | none => "None"
  | some p => p

/-- Lines 262-263: `length = int(self.headers.get('Content-Length', 0))` and
`data = json.loads(self.rfile.read(length)) if length else {}` — a missing or
zero `Content-Length` yields the empty object without touching `json.loads`. -/
def parsedBody (req : POSTRequest) : Except String Data :=
  if req.content_length.getD 0 ≠ 0 then req.body else Except.ok []

/-- Lines 261-271 of spiffe_agent.py: decode the body (an undecodable body
makes `json.loads` raise, and nothing in `do_POST` catches that), then call
`agent.handle_request`; its result is sent as a 200 JSON response, and an
exception from it as a 500 response with body `{"error": str(e)}`. -/
def readAndDispatch
    (handle_request : String → Data → Option String → Except String Data)
    (req : POSTRequest) : Response :=
  match parsedBody req with
  | Except.error e => Response.uncaughtException e
  | Except.ok data =>
    match handle_request req.path data req.peer_id with
    | Except.ok result => Response.jsonResponse 200 result
    | Except.error e => Response.jsonResponse 500 [("error", JVal.str e)]

/-- `AgentHandler.do_POST` (spiffe_agent.py lines 236-271): authorize the
already-extracted peer id first — a denial sends `send_error(403,
f"Unauthorized: {peer_id}")` and returns — then read, decode and dispatch. -/
def do_POST (agent : AgentConfig) (dev_mode : Bool)
    (handle_request : String → Data → Option String → Except String Data)
    (req : POSTRequest) : Response :=
  if !agent.allowed_callers.isEmpty && !(peerInList req.peer_id agent.allowed_callers) then
    if req.peer_id.isNone && dev_mode then
      readAndDispatch handle_request req
    else
      Response.errorResponse 403 ("Unauthorized: " ++ pyStr req.peer_id)
  else
    readAndDispatch handle_request req

/-- The `spiffe_id` field of the health body: `"unknown"` when `agent.mtls` is
`None`, otherwise whatever `mtls.spiffe_id` holds (`null` when never set). -/
def healthSpiffeId (mtls : Option HandlerState) : JVal :=
  match mtls with
  | none => JVal.str "unknown"
  | some h =>
    match h.spiffe_id with
    | none => JVal.null
    | some sid => JVal.str sid

/-- `AgentHandler.do_GET` (spiffe_agent.py lines 273-282): `/health` answers
200 with the status object; any other path answers `send_error(404)` (whose
default message is "Not Found"). -/
def do_GET (agent : AgentConfig) (mtls : Option HandlerState) (path : String) :
    Response :=
  if path = "/health" then
    Response.jsonResponse 200
      [("status", JVal.str "healthy"),
       ("service", JVal.str agent.service_name),
       ("spiffe_id", healthSpiffeId mtls)]
  else
    Response.errorResponse 404 "Not Found"

theorem do_POST_eq_authorize (agent : AgentConfig) (dev_mode : Bool)
    (handle_request : String → Data → Option String → Except String Data)
    (req : POSTRequest) :
    do_POST agent dev_mode handle_request req =
      if authorize agent.allowed_callers dev_mode req.peer_id then
        readAndDispatch handle_request req
      else
        Response.errorResponse 403 ("Unauthorized: " ++ pyStr req.peer_id) := by
  unfold do_POST authorize
  cases hb : (!agent.allowed_callers.isEmpty && !(peerInList req.peer_id agent.allowed_callers)) with
  | false => simp
  | true =>
    cases hc : (req.peer_id.isNone && dev_mode) with
    | false => simp [hc]
    | true => simp [hc]

/-- C1: the inbound authorization decision permits the request iff the
allow-list is empty, or the peer id is a member of the allow-list, or the peer
id is absent and the dev-mode flag is set; every other case is denied. -/
theorem authorize_iff (allowed_callers : List String) (dev_mode : Bool)
    (peer_id : Option String) :
    authorize allowed_callers dev_mode peer_id = true ↔
      (allowed_callers = [] ∨
        (∃ p, peer_id = some p ∧ p ∈ allowed_callers) ∨
        (peer_id = none ∧ dev_mode = true)) := by
  cases peer_id with
  | none =>
    cases allowed_callers with
    | nil => simp [authorize, peerInList]
    | cons a l =>
      cases dev_mode with
      | false => simp [authorize, peerInList]
      | true => simp [authorize, peerInList]
  | some p =>
    cases allowed_callers with
    | nil => simp [authorize, peerInList]
    | cons a l =>
      by_cases hp : p ∈ a :: l
      · simp [authorize, peerInList, hp]
        exact List.mem_cons.mp hp
      · simp [authorize, peerInList, hp]
        simpa [List.mem_cons, not_or] using hp

/-- Whether a response is a 4xx-class response (of either shape). -/
def is4xxResponse (r : Response) : Bool :=
  match r with
  | Response.errorResponse code _ => 400 ≤ code && code < 500
  | Response.jsonResponse code _ => 400 ≤ code && code < 500
  | Response.uncaughtException _ => false

/-- A callback that echoes the decoded body. -/
def echoHandler : String → Data → Option String → Except String Data :=
  fun _ d _ => Except.ok d

/-- A callback that raises `Exception("boom")`. -/
def boomHandler : String → Data → Option String → Except String Data :=
  fun _ _ _ => Except.error "boom"

/-- An agent configured without an allow-list. -/
def cfgNoAllow : AgentConfig :=
  { service_name := "git-collector", allowed_callers := [] }

/-- An agent that only allows the LLM gateway. -/
def cfgAllow : AgentConfig :=
  { service_name := "risk-scorer",
    allowed_callers := ["spiffe://security-training.example.org/llm-gateway"] }

/-- A request whose body `json.loads` cannot decode. -/
def badBodyReq : POSTRequest :=
  { peer_id := some "spiffe://security-training.example.org/llm-gateway",
    content_length := some 9,
    body := Except.error "Expecting value: line 1 column 1 (char 0)",
    path := "/collect" }

/-- A request from a peer that is not on `cfgAllow`'s allow-list. -/
def deniedReq : POSTRequest :=
  { peer_id := some "spiffe://security-training.example.org/intruder",
    content_length := some 2, body := Except.ok [], path := "/collect" }

/-- A decodable request from the allowed peer. -/
def okReq : POSTRequest :=
  { peer_id := some "spiffe://security-training.example.org/llm-gateway",
    content_length := some 2,
    body := Except.ok [("x", JVal.str "1")],
    path := "/score" }

/-- A request with no `Content-Length` header at all. -/
def headerlessReq : POSTRequest :=
  { peer_id := some "spiffe://security-training.example.org/llm-gateway",
    content_length := none,
    body := Except.error "unread body", path := "/trigger" }

/-- C5 counterexample: an authorized POST whose body is undecodable does not
short-circuit with a 4xx-class MalformedRequest response — the `json.loads`
exception escapes `do_POST` uncaught and no structured response is sent. -/
theorem malformed_body_counterexample :
    do_POST cfgNoAllow false echoHandler badBodyReq =
      Response.uncaughtException "Expecting value: line 1 column 1 (char 0)" ∧
    is4xxResponse (do_POST cfgNoAllow false echoHandler badBodyReq) = false :=
  ⟨rfl, rfl⟩

/-- C5 amended: for every inbound POST, the peer is authorized first (a denied
peer short-circuits with a 403 Unauthorized response before the body is even
read); only then is the body read and decoded, and an undecodable body raises
an uncaught exception (dropping the connection without a 4xx-class response)
rather than producing a MalformedRequest response; a decoded body is passed to
the business-logic callback. -/
theorem do_POST_pipeline (agent : AgentConfig) (dev_mode : Bool)
    (handle_request : String → Data → Option String → Except String Data)
    (req : POSTRequest) :
    (authorize agent.allowed_callers dev_mode req.peer_id = false →
      do_POST agent dev_mode handle_request req =
        Response.errorResponse 403 ("Unauthorized: " ++ pyStr req.peer_id)) ∧
    (authorize agent.allowed_callers dev_mode req.peer_id = true →
      ∀ e, parsedBody req = Except.error e →
        do_POST agent dev_mode handle_request req = Response.uncaughtException e) ∧
    (authorize agent.allowed_callers dev_mode req.peer_id = true →
      ∀ d, parsedBody req = Except.ok d →
        do_POST agent dev_mode handle_request req =
          (match handle_request req.path d req.peer_id with
            | Except.ok result => Response.jsonResponse 200 result
            | Except.error e => Response.jsonResponse 500 [("error", JVal.str e)])) := by
  refine ⟨?_, ?_, ?_⟩
  · intro ha
    rw [do_POST_eq_authorize]
    simp [ha]
  · intro ha e he
    rw [do_POST_eq_authorize]
    simp [ha, readAndDispatch, he]
  · intro ha d hd
    rw [do_POST_eq_authorize]
    simp [ha, readAndDispatch, hd]

/-- C5 witness: the amended pipeline at a denied peer — the 403 is sent
without the body being consulted. -/
theorem do_POST_pipeline_witness :
    do_POST cfgAllow false echoHandler deniedReq =
      Response.errorResponse 403 ("Unauthorized: " ++ pyStr deniedReq.peer_id) :=
  (do_POST_pipeline cfgAllow false echoHandler deniedReq).1 (by decide)

/-- C8: every GET for `/health` answers 200 with a body holding the health
status, the service name, and the service's own SPIFFE ID, for every agent
configuration (in particular for every allow-list, which `do_GET` never
consults) and every credential state, business-logic callback not involved. -/
theorem health_endpoint (agent : AgentConfig) (mtls : Option HandlerState) :
    do_GET agent mtls "/health" =
      Response.jsonResponse 200
        [("status", JVal.str "healthy"),
         ("service", JVal.str agent.service_name),
         ("spiffe_id", healthSpiffeId mtls)] := by
  simp [do_GET]

/-- C9: once a POST is authorized and its body decoded, a callback exception
yields a 500 response whose body is exactly `{"error": <message>}`, and a
normal callback result is encoded as the 200 response body. -/
theorem callback_result_encoding (agent : AgentConfig) (dev_mode : Bool)
    (handle_request : String → Data → Option String → Except String Data)
    (req : POSTRequest) (d : Data)
    (hauth : authorize agent.allowed_callers dev_mode req.peer_id = true)
    (hbody : parsedBody req = Except.ok d) :
    (∀ e, handle_request req.path d req.peer_id = Except.error e →
      do_POST agent dev_mode handle_request req =
        Response.jsonResponse 500 [("error", JVal.str e)]) ∧
    (∀ r, handle_request req.path d req.peer_id = Except.ok r →
      do_POST agent dev_mode handle_request req = Response.jsonResponse 200 r) := by
  constructor
  · intro e he
    rw [do_POST_eq_authorize]
    simp [hauth, readAndDispatch, hbody, he]
  · intro r hr
    rw [do_POST_eq_authorize]
    simp [hauth, readAndDispatch, hbody, hr]

/-- C9 witness: a raising callback on a decoded, authorized request produces
exactly `500 {"error": "boom"}`. -/
theorem callback_result_encoding_witness :
    do_POST cfgNoAllow false boomHandler okReq =
      Response.jsonResponse 500 [("error", JVal.str "boom")] :=
  (callback_result_encoding cfgNoAllow false boomHandler okReq
    [("x", JVal.str "1")] rfl rfl).1 "boom" rfl

/-- C10: a POST with a missing or zero `Content-Length` is not treated as
malformed — its body is taken to be the empty object and dispatched to the
callback (subject to authorization) exactly like a decodable body. -/
theorem empty_content_length_dispatch (agent : AgentConfig) (dev_mode : Bool)
    (handle_request : String → Data → Option String → Except String Data)
    (req : POSTRequest)
    (hlen : req.content_length = none ∨ req.content_length = some 0)
    (hauth : authorize agent.allowed_callers dev_mode req.peer_id = true) :
    do_POST agent dev_mode handle_request req =
      (match handle_request req.path [] req.peer_id with
        | Except.ok result => Response.jsonResponse 200 result
        | Except.error e => Response.jsonResponse 500 [("error", JVal.str e)]) := by
  have hb : parsedBody req = Except.ok [] := by
    rcases hlen with h0 | h0 <;> simp [parsedBody, h0]
  rw [do_POST_eq_authorize]
  simp [hauth, readAndDispatch, hb]

/-- C10 witness: a request with no `Content-Length` header (and an unread,
undecodable stream) is dispatched with the empty object and answered 200. -/
theorem empty_content_length_dispatch_witness :
    do_POST cfgNoAllow false echoHandler headerlessReq =
      Response.jsonResponse 200 [] :=
  empty_content_length_dispatch cfgNoAllow false echoHandler headerlessReq
    (Or.inl rfl) rfl

/-
  The transport factory (`create_server_ssl_context`, spiffe_agent.py lines
  143-154) and the outbound client (`make_mtls_request`, lines 156-170, and
  `APIClient.post`, api_client.py lines 48-63).  `ssl.create_default_context`
  is modelled after the CPython documentation (3.10+): with the default
  `Purpose.SERVER_AUTH` it yields a client-mode (`PROTOCOL_TLS_CLIENT`)
  context that verifies the server (`CERT_REQUIRED`, hostname checking on);
  with `Purpose.CLIENT_AUTH` it yields a server-mode (`PROTOCOL_TLS_SERVER`)
  context that does not request client certificates (`CERT_NONE`).
-/

/-- `ssl.Purpose`. -/
inductive Purpose where
  | serverAuth : Purpose
  | clientAuth : Purpose
deriving Repr, DecidableEq

/-- `ssl.VerifyMode`. -/
inductive VerifyMode where
  | CERT_NONE : VerifyMode
  | CERT_OPTIONAL : VerifyMode
  | CERT_REQUIRED : VerifyMode
deriving Repr, DecidableEq

/-- Whether a context is client-mode or server-mode (`PROTOCOL_TLS_CLIENT` /
`PROTOCOL_TLS_SERVER`). -/
inductive TLSProtocol where
  | TLS_CLIENT : TLSProtocol
  | TLS_SERVER : TLSProtocol
deriving Repr, DecidableEq

/-- `ssl.TLSVersion` values this code touches. -/
inductive TLSVersion where
  | MINIMUM_SUPPORTED : TLSVersion
  | TLSv1_2 : TLSVersion
  | TLSv1_3 : TLSVersion
deriving Repr, DecidableEq

/-- The configuration of an `ssl.SSLContext` that the handler reads or
writes: mode, peer-verification mode, hostname checking, the certificate
chain and key loaded by `load_cert_chain`, the CA file loaded by
`load_verify_locations`, and `minimum_version`. -/
structure SSLContext where
  protocol : TLSProtocol
  verify_mode : VerifyMode
  check_hostname : Bool
  cert_chain : Option (String × String)
  ca_file : Option String
  minimum_version : TLSVersion
deriving Repr, DecidableEq

/-- `ssl.create_default_context(purpose)`, per the CPython documentation. -/
def create_default_context (purpose : Purpose) : SSLContext :=
  match purpose with
  | Purpose.serverAuth =>
    { protocol := TLSProtocol.TLS_CLIENT, verify_mode := VerifyMode.CERT_REQUIRED,
      check_hostname := true, cert_chain := none, ca_file := none,
      minimum_version := TLSVersion.MINIMUM_SUPPORTED }
  | Purpose.clientAuth =>
    { protocol := TLSProtocol.TLS_SERVER, verify_mode := VerifyMode.CERT_NONE,
      check_hostname := false, cert_chain := none, ca_file := none,
      minimum_version := TLSVersion.MINIMUM_SUPPORTED }

/-- `SPIFFEMTLSHandler.create_server_ssl_context` (spiffe_agent.py lines
143-154): with any of the three files unset, the default (client-purpose)
context is returned as the insecure fallback; otherwise a
`Purpose.CLIENT_AUTH` context is built, the cert chain and trust bundle are
loaded, `verify_mode` is set to `CERT_REQUIRED` and `minimum_version` to
TLS 1.2. -/
def create_server_ssl_context (s : HandlerState) : SSLContext :=
  match s.cert_file, s.key_file, s.bundle_file with
  | some certfile, some keyfile, some bundlefile =>
    { create_default_context Purpose.clientAuth with
      cert_chain := some (certfile, keyfile),
      ca_file := some bundlefile,
      verify_mode := VerifyMode.CERT_REQUIRED,
      minimum_version := TLSVersion.TLSv1_2 }
  | _, _, _ => create_default_context Purpose.serverAuth

/-- A context demands a certificate of connecting clients exactly when it is a
server-mode context with `verify_mode = CERT_REQUIRED`. -/
def requiresClientCert (ctx : SSLContext) : Bool :=
  decide (ctx.protocol = TLSProtocol.TLS_SERVER ∧
    ctx.verify_mode = VerifyMode.CERT_REQUIRED)

/-- C4: with all three credential files set, the server context requires and
verifies a client certificate against the trust bundle and pins the minimum
protocol version to TLS 1.2; with any of them absent, it is the default
fallback context, which carries no client-certificate requirement. -/
theorem server_context_branches (s : HandlerState) :
    if s.cert_file.isSome && s.key_file.isSome && s.bundle_file.isSome then
      requiresClientCert (create_server_ssl_context s) = true ∧
      (create_server_ssl_context s).ca_file = s.bundle_file ∧
      (create_server_ssl_context s).cert_chain =
        some (s.cert_file.getD "", s.key_file.getD "") ∧
      (create_server_ssl_context s).minimum_version = TLSVersion.TLSv1_2
    else
      create_server_ssl_context s = create_default_context Purpose.serverAuth ∧
      requiresClientCert (create_server_ssl_context s) = false := by
  rcases s with ⟨cf, kf, bf, sv, si⟩
  cases cf <;> cases kf <;> cases bf <;>
    simp [create_server_ssl_context, create_default_context, requiresClientCert]

/-- The `verify` argument of `requests.post`: `False` (no server-certificate
verification at all), an explicit CA bundle path, or the library default
(system CA verification plus hostname matching). -/
inductive Verify where
  | noVerify : Verify
  | caBundle : String → Verify
  | defaultVerify : Verify
deriving Repr, DecidableEq

/-- One HTTP request as handed to `requests.post`: URL, JSON body, the
optional client-certificate pair `cert=(certfile, keyfile)`, the
server-verification mode, and the timeout in seconds. -/
structure HTTPRequest where
  url : String
  json_data : Data
  client_cert : Option (String × String)
  verify : Verify
  timeout : Nat
deriving Repr, DecidableEq

/-- `SPIFFEMTLSHandler.make_mtls_request` (spiffe_agent.py lines 156-170):
raises `RuntimeError("Certificates not initialized")` when the cert or key
file is unset; otherwise issues exactly one `requests.post` presenting the
current cert/key pair, with `verify=False`. -/
def make_mtls_request (s : HandlerState) (url : String) (json_data : Data)
    (timeout : Nat) : Except String HTTPRequest :=
  if s.cert_file.isNone || s.key_file.isNone then
    Except.error "Certificates not initialized"
  else
    Except.ok { url := url, json_data := json_data,
                client_cert := some (s.cert_file.getD "", s.key_file.getD ""),
                verify := Verify.noVerify, timeout := timeout }

/-- C6 counterexample: with populated credentials, the outbound request does
present the cert/key pair, but its `verify` field is `False` — the peer
server's certificate is not validated against the trust bundle at all, which
is more than merely skipping hostname matching. -/
theorem mtls_request_verify_counterexample :
    make_mtls_request oldState "https://risk-scorer:8510/score" [] 30 =
      Except.ok { url := "https://risk-scorer:8510/score", json_data := [],
                  client_cert := some ("OLDCERT", "OLDKEY"),
                  verify := Verify.noVerify, timeout := 30 } ∧
    Verify.noVerify ≠ Verify.caBundle "OLDBUNDLE" := by
  exact ⟨rfl, by decide⟩

/-- C6 amended: the outbound client presents the current identity document's
certificate and key for client authentication, but disables server-certificate
verification entirely (`verify=False`), skipping both validation against the
trust bundle and hostname matching. -/
theorem mtls_request_no_server_verification (s : HandlerState)
    (cf kf url : String) (d : Data) (t : Nat)
    (hc : s.cert_file = some cf) (hk : s.key_file = some kf) :
    make_mtls_request s url d t =
      Except.ok { url := url, json_data := d, client_cert := some (cf, kf),
                  verify := Verify.noVerify, timeout := t } := by
  simp [make_mtls_request, hc, hk]

/-- C6 witness: the amended statement at the populated credential state. -/
theorem mtls_request_no_server_verification_witness :
    make_mtls_request oldState "https://risk-scorer:8510/score" [] 30 =
      Except.ok { url := "https://risk-scorer:8510/score", json_data := [],
                  client_cert := some ("OLDCERT", "OLDKEY"),
                  verify := Verify.noVerify, timeout := 30 } :=
  mtls_request_no_server_verification oldState "OLDCERT" "OLDKEY"
    "https://risk-scorer:8510/score" [] 30 rfl rfl

/-- The port map of `APIClient._get_service_url` (api_client.py lines 28-33),
with its default of 80. -/
def servicePorts (service : String) : Nat :=
  if service = "risk-scorer" then 8510
  else if service = "training-recommender" then 8511
  else if service = "llm-gateway" then 8520
  else if service = "git-collector" then 8501
  else 80

/-- The environment `_get_service_url` reads: whether the Kubernetes service
account is mounted, and the resolved `K8S_NAMESPACE` / `SERVICE_HOST` values
(with their defaults already applied). -/
structure Env where
  in_k8s : Bool
  k8s_namespace : String
  service_host : String
deriving Repr, DecidableEq

/-- `APIClient._get_service_url` (api_client.py lines 23-46). -/
def get_service_url (env : Env) (service : String) (use_https : Bool) : String :=
  let host := if env.in_k8s
    then service ++ "-svc." ++ env.k8s_namespace ++ ".svc.cluster.local"
    else env.service_host
  let protocol := if use_https then "https" else "http"
  protocol ++ "://" ++ host ++ ":" ++ toString (servicePorts service)

/-- What `APIClient.post` does: return the mTLS response, swallow an mTLS
failure and return `None` (with the printed message), or fall back to a plain
HTTP request. -/
inductive PostResult where
  | mtlsResponse : HTTPRequest → PostResult
  | noneResult : String → PostResult
  | plainHTTP : HTTPRequest → PostResult
deriving Repr, DecidableEq

/-- The fallback `requests.post(url, json=data, timeout=timeout)` of
api_client.py line 63: plain HTTP, no client certificate, default
verification. -/
def plainPost (env : Env) (service path : String) (d : Data) (timeout : Nat) :
    HTTPRequest :=
  { url := get_service_url env service false ++ path, json_data := d,
    client_cert := none, verify := Verify.defaultVerify, timeout := timeout }

/-- `APIClient.post` (api_client.py lines 48-63): with a handler whose cert
file is set, try the mTLS request, swallowing any exception into a `None`
return; otherwise (no handler, or no cert file) issue one plain-HTTP POST. -/
def APIClient.post (env : Env) (handler : Option HandlerState)
    (service path : String) (d : Data) (timeout : Nat) : PostResult :=
  match handler with
  | some h =>
    if h.cert_file.isSome then
      match make_mtls_request h (get_service_url env service true ++ path) d timeout with
      | Except.ok req => PostResult.mtlsResponse req
      | Except.error e => PostResult.noneResult ("mTLS request failed: " ++ e)
    else
      PostResult.plainHTTP (plainPost env service path d timeout)
  | none => PostResult.plainHTTP (plainPost env service path d timeout)

/-- How many HTTP requests a `PostResult` stands for. -/
def requestsIssued : PostResult → Nat
  | PostResult.mtlsResponse _ => 1
  | PostResult.noneResult _ => 0
  | PostResult.plainHTTP _ => 1

/-- A development environment outside Kubernetes. -/
def devEnv : Env :=
  { in_k8s := false, k8s_namespace := "security-training",
    service_host := "localhost" }

/-- C7 counterexample: with credentials never initialized, `APIClient.post`
does not signal a credentials-not-initialized error — it sends one plain-HTTP
request to the peer instead. -/
theorem outbound_fallback_counterexample :
    APIClient.post devEnv (some initState) "risk-scorer" "/score" [] 30 =
      PostResult.plainHTTP
        { url := "http://localhost:8510/score", json_data := [],
          client_cert := none, verify := Verify.defaultVerify, timeout := 30 } := by
  decide

/-- C7 amended: `make_mtls_request` itself signals "Certificates not
initialized" (sending nothing) whenever the cert file or the key file is
unset; `APIClient.post` falls back to one plain-HTTP request when its handler
has no cert file or when there is no handler at all, and when the cert file is
set but the key file is not it swallows the mTLS error and returns `None`
without sending anything; in every case at most one request is issued — no
retry happens at this layer. -/
theorem outbound_at_most_once (env : Env) (s : HandlerState)
    (service path url : String) (d : Data) (t : Nat)
    (hcred : s.cert_file = none ∨ s.key_file = none) :
    make_mtls_request s url d t = Except.error "Certificates not initialized" ∧
    (s.cert_file = none →
      APIClient.post env (some s) service path d t =
        PostResult.plainHTTP (plainPost env service path d t)) ∧
    (s.cert_file.isSome = true → s.key_file = none →
      APIClient.post env (some s) service path d t =
        PostResult.noneResult "mTLS request failed: Certificates not initialized") ∧
    APIClient.post env none service path d t =
      PostResult.plainHTTP (plainPost env service path d t) ∧
    (∀ h2 : Option HandlerState,
      requestsIssued (APIClient.post env h2 service path d t) ≤ 1) := by
  refine ⟨?_, ?_, ?_, rfl, ?_⟩
  · rcases hcred with h | h <;> simp [make_mtls_request, h]
  · intro hc
    simp [APIClient.post, hc]
  · intro hcs hk
    have hm : make_mtls_request s (get_service_url env service true ++ path) d t =
        Except.error "Certificates not initialized" := by
      simp [make_mtls_request, hk]
    simp [APIClient.post, hcs, hm]
  · intro h2
    cases h2 with
    | none => simp [APIClient.post, requestsIssued]
    | some h =>
      cases hc : h.cert_file.isSome with
      | true =>
        cases hm : make_mtls_request h (get_service_url env service true ++ path) d t with
        | ok r => simp [APIClient.post, hc, hm, requestsIssued]
        | error e => simp [APIClient.post, hc, hm, requestsIssued]
      | false => simp [APIClient.post, hc, requestsIssued]

/-- A handler state with the cert file written but the key file still unset. -/
def certOnlyState : HandlerState :=
  { cert_file := some "OLDCERT", key_file := none, bundle_file := none,
    x509_svid := none, spiffe_id := none }

/-- C7 witness: the amended statement at a state whose key file is unset while
the cert file is set — `make_mtls_request` signals the error, and
`APIClient.post` swallows it into a `None` return with no request issued. -/
theorem outbound_at_most_once_witness :
    make_mtls_request certOnlyState "https://localhost:8510/score" [] 30 =
      Except.error "Certificates not initialized" ∧
    APIClient.post devEnv (some certOnlyState) "risk-scorer" "/score" [] 30 =
      PostResult.noneResult "mTLS request failed: Certificates not initialized" :=
  ⟨(outbound_at_most_once devEnv certOnlyState "risk-scorer" "/score"
      "https://localhost:8510/score" [] 30 (Or.inr rfl)).1,
   (outbound_at_most_once devEnv certOnlyState "risk-scorer" "/score"
      "https://localhost:8510/score" [] 30 (Or.inr rfl)).2.2.1 rfl rfl⟩
